import Mathlib

/-!
# Verification of the IvyBuildTools package-metadata resolver

Shallow embedding of `src/ivybuildtools/ivybuildtools.py`: a resolver that
derives packaging metadata (name, version, dependency list, ...) from a
Pipfile manifest, an optional README, and git tag/branch state.

Modelling conventions:
* The parsed Pipfile is a nested mapping; we model each section as an
  association list with unique keys (Python `dict` lookup becomes
  `List.lookup`).
* Python exceptions become an explicit error type `PyErr`; `raise E(msg)
  from cause` becomes `PyErr.raisedFrom msg cause`. Functions that can
  raise return `Except PyErr _`.
* The two external git commands are modelled by a `GitState` record holding
  the (already-stripped) stdout of each command, `none` meaning the command
  exited nonzero (Python `CalledProcessError`).
* Functions that print a `WARN:` line additionally return the list of
  warning lines they emit.
-/

/-- Decidable equality on `Except`, for concrete evaluation of results. -/
instance {ε α : Type} [DecidableEq ε] [DecidableEq α] : DecidableEq (Except ε α)
  | .ok a, .ok b =>
    if h : a = b then .isTrue (by rw [h])
    else .isFalse (by intro he; cases he; exact h rfl)
  | .ok _, .error _ => .isFalse (by intro h; cases h)
  | .error _, .ok _ => .isFalse (by intro h; cases h)
  | .error e, .error f =>
    if h : e = f then .isTrue (by rw [h])
    else .isFalse (by intro he; cases he; exact h rfl)

namespace IvyBuildTools

/-- Python exception values, with `raise ... from cause` chaining. -/
inductive PyErr where
  /-- `KeyError(key)` from a failed `dict` lookup. -/
  | keyError (key : String) : PyErr
  /-- `CalledProcessError` from `check_output(cmd)`. -/
  | calledProcessError (cmd : String) : PyErr
  /-- `AssertionError(msg)` from a failed `assert`. -/
  | assertionError (msg : String) : PyErr
  /-- `raise Exception(msg) from cause`. -/
  | raisedFrom (msg : String) (cause : PyErr) : PyErr
  deriving DecidableEq, Repr

/-- The spec's `MissingFieldError`: in the source, the plain `Exception`
raised by `_get_package_meta` with the field-specific message, chained from
the `KeyError` for the missing key. -/
def MissingFieldError (failure_msg : String) (key : String) : PyErr :=
  .raisedFrom failure_msg (.keyError key)

/-- The spec's `VersionResolutionError`: in the source, the `Exception`
raised by the `version` property when `generate_version` fails, chained
from the underlying error. -/
def VersionResolutionError (cause : PyErr) : PyErr :=
  .raisedFrom
    "Cannot generate package version from git tags. Add some tags or add version to Pipfile. Cannot continue."
    cause

/-- The parsed Pipfile manifest (`toml.load` result), restricted to the
sections the resolver reads.  `package` and `packages` are mappings with
string values; `requiresPythonVersion` is `pipfile["requires"]["python_version"]`
when both keys exist (`none` collapses the two `KeyError` cases, which the
source handles identically). -/
structure Pipfile where
  package : List (String × String)
  packages : List (String × String)
  requiresPythonVersion : Option String
  deriving DecidableEq, Repr

/-- Output of the two git commands `generate_version` shells out to:
stripped stdout of `git describe --tags --long --dirty` and of
`git rev-parse --abbrev-ref HEAD`; `none` models a `CalledProcessError`. -/
structure GitState where
  describe : Option String
  branch : Option String
  deriving DecidableEq, Repr

/-- Python `s.split("-")` on the character list, accumulator-style:
splits at every `-`, keeping empty pieces (`"".split("-") == [""]`). -/
def splitDash : List Char → List Char → List (List Char)
  | acc, [] => [acc.reverse]
  | acc, c :: rest =>
    if c = '-' then acc.reverse :: splitDash [] rest
    else splitDash (c :: acc) rest

/-- Python `s.split("-")`. -/
def pySplit (s : String) : List String :=
  (splitDash [] s.data).map String.mk

/-- Left brace character (code point 123). -/
def lbrace : Char := Char.ofNat 123

/-- Right brace character (code point 125). -/
def rbrace : Char := Char.ofNat 125

/-- Look up a replacement field of `str.format`; all templates the source
passes use only keys present in the keyword arguments, so the missing-key
`KeyError` path is never reachable and is modelled as the empty string. -/
def lookupField (fields : List (String × String)) (key : String) : String :=
  match List.lookup key fields with
  | some v => v
  | none => ""

/-- One pass of Python `str.format` substitution over the character list:
each `\x7bkey\x7d` is replaced by the corresponding field value, and the
substituted value is not rescanned.  Fuel is the remaining input length,
which strictly exceeds the consumed characters at every step. -/
def substFields (fields : List (String × String)) : Nat → List Char → List Char
  | 0, cs => cs
  | _ + 1, [] => []
  | fuel + 1, c :: rest =>
    if c = lbrace then
      let key := rest.takeWhile (fun d => d ≠ rbrace)
      let rest2 := (rest.dropWhile (fun d => d ≠ rbrace)).drop 1
      (lookupField fields (String.mk key)).data ++ substFields fields fuel rest2
    else
      c :: substFields fields fuel rest

/-- Python `fmt.format(**fields)` for the plain named-field templates the
source uses. -/
def pyFormat (fmt : String) (fields : List (String × String)) : String :=
  String.mk (substFields fields fmt.data.length fmt.data)

/-- Python `str(b)` for a `bool` format argument. -/
def pyBoolStr (b : Bool) : String := if b then "True" else "False"

/-- The default template of `generate_version`. -/
def defaultFmt : String := "{tag}{branchcommit}"

/-- `IvyBuildTools.generate_version(fmt)`: run the two git commands, split
the describe output on `-` into 3 or 4 parts (else `assert` fails), strip
one character from the sha, build `branchcommit` (empty on `master`), and
format the template. -/
def generate_version (fmt : String) (git : GitState) : Except PyErr String :=
  match git.describe with
  | none =>
    .error (.raisedFrom "No git tags found"
      (.calledProcessError "git describe --tags --long --dirty"))
  | some version =>
    match git.branch with
    | none =>
      .error (.raisedFrom "Unable to find git branch name"
        (.calledProcessError "git rev-parse --abbrev-ref HEAD"))
    | some branch =>
      let parts := pySplit version
      if parts.length = 3 ∨ parts.length = 4 then
        let dirty := parts.length = 4
        let tag := parts.headD ""
        let count := (parts.drop 1).headD ""
        let sha := String.mk (((parts.drop 2).headD "").data.drop 1)
        let branchcommit :=
          if branch = "master" then "" else "-" ++ branch ++ "-" ++ sha
        .ok (pyFormat fmt
          [("tag", tag), ("count", count), ("sha", sha),
           ("dirty", pyBoolStr dirty), ("branch", branch),
           ("version", version), ("branchcommit", branchcommit)])
      else
        .error (.assertionError "Cannot parse git tags")

/-- `IvyBuildTools._get_package_meta(key, failure_msg, default, required)`:
look `key` up in the `package` section; on `KeyError`, either raise the
failure message (chained from the `KeyError`) when `required`, or print a
warning and return `default`. -/
def _get_package_meta (package_meta : List (String × String)) (key : String)
    (failure_msg : String) (default : String) (required : Bool) :
    Except PyErr String :=
  match List.lookup key package_meta with
  | some v => .ok v
  | none =>
    if required then .error (MissingFieldError failure_msg key)
    else .ok default

/-- The `name` property. -/
def name (package_meta : List (String × String)) : Except PyErr String :=
  _get_package_meta package_meta "name"
    "No package name specified in Pipfile. Cannot continue." "" true

/-- The `description` property. -/
def description (package_meta : List (String × String)) : Except PyErr String :=
  _get_package_meta package_meta "description"
    "No description specified in Pipfile. Cannot continue." "" true

/-- The `author` property. -/
def author (package_meta : List (String × String)) : Except PyErr String :=
  _get_package_meta package_meta "author"
    "No author specified in Pipfile. Cannot continue." "" true

/-- The `url` property. -/
def url (package_meta : List (String × String)) : Except PyErr String :=
  _get_package_meta package_meta "url"
    "No URL specified in Pipfile. Cannot continue." "" true

/-- The `long_description` property.  The environment's `README.md` is
modelled as `readme : Option String` (its text, or `none` when opening it
raises `FileNotFoundError`).  The source catches exactly that error,
prints a warning and returns `None`; the returned pair is
(result, warning lines printed). -/
def long_description (readme : Option String) : Option String × List String :=
  match readme with
  | some txt => (some txt, [])
  | none =>
    (none,
     ["[IvyBuildTools] WARN: Unable to find a README.md to use as package long description."])

/-- The `python_requires` property, returned with its warning lines.
The source's `KeyError` branch prints a warning that names a default
`>=3.7, <4` but then falls off the end of the function, so Python returns
`None`: the first component is `none` in that branch, not the default. -/
def python_requires (pf : Pipfile) : Option String × List String :=
  match pf.requiresPythonVersion with
  | some pv => (some (">=" ++ pv ++ ", <4"), [])
  | none =>
    (none,
     ["[IvyBuildTools] WARN: Unable to find required python version for this module, using default [>=3.7, <4]."])

/-- `IvyBuildTools._generate_requires`: the loop body sets the version to
the empty string when the constraint contains `*` (Python `"*" in ver`),
then appends `f"\x7bpkg\x7d\x7bver\x7d"`. -/
def _generate_requires : List (String × String) → List String
  | [] => []
  | (pkg, ver) :: rest =>
    let ver2 := if ver.data.contains '*' then "" else ver
    (pkg ++ ver2) :: _generate_requires rest

/-- The `install_requires` property. -/
def install_requires (pf : Pipfile) : List String :=
  _generate_requires pf.packages

/-- The `else` branch of the `version` property: call `generate_version()`
with the default template and wrap any failure in the
`VersionResolutionError` message. -/
def versionFallback (git : GitState) : Except PyErr String :=
  match generate_version defaultFmt git with
  | .ok s => .ok s
  | .error e => .error (VersionResolutionError e)

/-- The `version` property: `self._package_meta.get("version")` is truthy
(present and non-empty) → return it; otherwise fall back to
`generate_version()` with error wrapping. -/
def version (pf : Pipfile) (git : GitState) : Except PyErr String :=
  match List.lookup "version" pf.package with
  | some v => if v = "" then versionFallback git else .ok v
  | none => versionFallback git

/-- The external environment a resolver instance reads: the manifest
loaded at construction, the optional `README.md` text, the git state, and
the result of setuptools' `find_packages` scan (an external black box). -/
structure Env where
  pipfile : Pipfile
  readme : Option String
  git : GitState
  foundPackages : List String
  deriving DecidableEq, Repr

/-- The descriptor mapping returned by `generate_setup`. -/
structure SetupArgs where
  name : String
  version : String
  description : String
  long_description : Option String
  long_description_content_type : String
  url : String
  author : String
  packages : List String
  python_requires : Option String
  install_requires : List String
  deriving DecidableEq, Repr

/-- `IvyBuildTools.generate_setup`: evaluate every property in the order
of the dict literal; the first exception propagates. -/
def generate_setup (env : Env) : Except PyErr SetupArgs := do
  let n ← name env.pipfile.package
  let v ← version env.pipfile env.git
  let d ← description env.pipfile.package
  let ld := long_description env.readme
  let u ← url env.pipfile.package
  let a ← author env.pipfile.package
  let pr := python_requires env.pipfile
  .ok ⟨n, v, d, ld.1, "text/markdown", u, a, env.foundPackages, pr.1,
    _generate_requires env.pipfile.packages⟩

/-!
State-passing forms of the operations, for the no-mutation invariant.
Each Python method only reads `self._pipfile` / `self._package_meta` and
local variables (the single rebinding `ver = ""` in `_generate_requires`
is of a loop-local, and `requires.append` mutates a fresh local list), so
the faithful state-passing embedding of each operation returns the
environment unchanged.
-/

/-- State-passing `name`. -/
def nameS (env : Env) : Except PyErr String × Env :=
  (name env.pipfile.package, env)

/-- State-passing `description`. -/
def descriptionS (env : Env) : Except PyErr String × Env :=
  (description env.pipfile.package, env)

/-- State-passing `long_description`. -/
def long_descriptionS (env : Env) : (Option String × List String) × Env :=
  (long_description env.readme, env)

/-- State-passing `version`. -/
def versionS (env : Env) : Except PyErr String × Env :=
  (version env.pipfile env.git, env)

/-- State-passing `author`. -/
def authorS (env : Env) : Except PyErr String × Env :=
  (author env.pipfile.package, env)

/-- State-passing `url`. -/
def urlS (env : Env) : Except PyErr String × Env :=
  (url env.pipfile.package, env)

/-- State-passing `python_requires`. -/
def python_requiresS (env : Env) : (Option String × List String) × Env :=
  (python_requires env.pipfile, env)

/-- State-passing `install_requires`. -/
def install_requiresS (env : Env) : List String × Env :=
  (install_requires env.pipfile, env)

/-- State-passing `generate_setup`. -/
def generate_setupS (env : Env) : Except PyErr SetupArgs × Env :=
  (generate_setup env, env)

/-- C1: a manifest whose package section carries an explicit (non-empty,
i.e. Python-truthy) `version` value makes the `version` property return
that value verbatim for every git state — in particular for states where
`generate_version` would fail, so version generation is never invoked. -/
theorem version_override_verbatim (pf : Pipfile) (git : GitState) (v : String)
    (hv : List.lookup "version" pf.package = some v) (hne : v ≠ "") :
    version pf git = .ok v := by
  unfold version
  rw [hv]
  simp [hne]

theorem version_override_verbatim_witness :
    version ⟨[("version", "1.0.0")], [], none⟩ ⟨none, none⟩ = .ok "1.0.0" :=
  version_override_verbatim _ ⟨none, none⟩ "1.0.0" (by decide) (by decide)

/-- C2 counterexample: the source tests `"*" in ver` (substring), not
equality with `"*"`; the constraint `==1.*` is not the wildcard `*`, yet
its entry is the bare name, not the name with the constraint appended. -/
theorem install_requires_star_substring_cex :
    ("==1.*" : String) ≠ "*" ∧
    _generate_requires [("potato", "==1.*")] = ["potato"] ∧
    ("potato" : String) ≠ "potato==1.*" := by decide

/-- C2 amended: the entry at each position is the bare dependency name
exactly when the constraint text contains `*`, and otherwise the name
concatenated with the constraint text verbatim. -/
theorem install_requires_entries (pkgs : List (String × String)) (i : Nat)
    (pkg ver : String) (h : pkgs[i]? = some (pkg, ver)) :
    (_generate_requires pkgs)[i]? =
      some (if ver.data.contains '*' then pkg else pkg ++ ver) := by
  induction pkgs generalizing i with
  | nil => simp at h
  | cons hd tl ih =>
    obtain ⟨p, w⟩ := hd
    cases i with
    | zero =>
      simp only [List.getElem?_cons_zero, Option.some.injEq, Prod.mk.injEq] at h
      obtain ⟨hp, hw⟩ := h
      subst hp
      subst hw
      by_cases hstar : '*' ∈ w.data
      · simp [_generate_requires, hstar, String.append_empty]
      · simp [_generate_requires, hstar]
    | succ n =>
      simp only [List.getElem?_cons_succ] at h
      simpa [_generate_requires] using ih n h

theorem install_requires_entries_witness :
    (_generate_requires [("potato", ">1"), ("spud", "*")])[0]? = some "potato>1" ∧
    (_generate_requires [("potato", ">1"), ("spud", "*")])[1]? = some "spud" := by
  refine ⟨?_, ?_⟩
  · have h := install_requires_entries [("potato", ">1"), ("spud", "*")] 0 "potato" ">1" (by decide)
    simpa using h
  · have h := install_requires_entries [("potato", ">1"), ("spud", "*")] 1 "spud" "*" (by decide)
    simpa using h

/-- C3: when the tag-describe output splits on `-` into a part count other
than 3 or 4, the parse `assert` fails, and the `version` property (with no
manifest override, the branch command succeeding) surfaces a
`VersionResolutionError` wrapping that parse error instead of any string. -/
theorem version_unparsable_raises (pf : Pipfile) (git : GitState)
    (desc branch : String)
    (hov : List.lookup "version" pf.package = none)
    (hd : git.describe = some desc) (hb : git.branch = some branch)
    (h3 : (pySplit desc).length ≠ 3) (h4 : (pySplit desc).length ≠ 4) :
    version pf git =
      .error (VersionResolutionError (.assertionError "Cannot parse git tags")) := by
  have hgen : generate_version defaultFmt git =
      .error (.assertionError "Cannot parse git tags") := by
    unfold generate_version
    rw [hd, hb]
    simp [h3, h4]
  unfold version
  rw [hov]
  unfold versionFallback
  rw [hgen]

theorem version_unparsable_raises_witness :
    version ⟨[], [], none⟩ ⟨some "a-b-c-d-e", some "master"⟩ =
      .error (VersionResolutionError (.assertionError "Cannot parse git tags")) :=
  version_unparsable_raises ⟨[], [], none⟩ ⟨some "a-b-c-d-e", some "master"⟩
    "a-b-c-d-e" "master" (by decide) (by decide) (by decide) (by decide) (by decide)

/-- C4 (code bug): for a manifest without `requires.python_version`, the
source prints the warning that names the default `>=3.7, <4` but then
falls off the end of the function, so the property yields `None` — not the
stated default constraint string. -/
theorem python_requires_missing_divergence :
    python_requires ⟨[], [], none⟩ =
      (none,
       ["[IvyBuildTools] WARN: Unable to find required python version for this module, using default [>=3.7, <4]."]) ∧
    (python_requires ⟨[], [], none⟩).1 ≠ some ">=3.7, <4" ∧
    python_requires ⟨[], [], some "3.7"⟩ = (some ">=3.7, <4", []) := by decide

/-- C5 counterexample: on describe output `v1.2.3-2-gabcdef1` and branch
`feature-x`, the sha part is `gabcdef1`, and stripping its 1-character
prefix leaves `abcdef1`; the output is `v1.2.3-feature-x-abcdef1`, not the
claimed `v1.2.3-feature-x-bcdef1`. -/
theorem generate_version_branch_cex :
    generate_version defaultFmt ⟨some "v1.2.3-2-gabcdef1", some "feature-x"⟩ =
      .ok "v1.2.3-feature-x-abcdef1" ∧
    ("v1.2.3-feature-x-abcdef1" : String) ≠ "v1.2.3-feature-x-bcdef1" := by decide

/-- C5 amended: describe output `v1.2.3-2-gabcdef1` on branch `feature-x`
with the default template yields exactly `v1.2.3-feature-x-abcdef1` (the
sha `gabcdef1` with its 1-character `g` prefix stripped). -/
theorem generate_version_branch_example :
    generate_version defaultFmt ⟨some "v1.2.3-2-gabcdef1", some "feature-x"⟩ =
      .ok "v1.2.3-feature-x-abcdef1" := by decide

/-- C6: describe output `v1.2.3-0-gabcdef1` on branch `master` with the
default template yields exactly the tag `v1.2.3` (empty `branchcommit`). -/
theorem generate_version_master_example :
    generate_version defaultFmt ⟨some "v1.2.3-0-gabcdef1", some "master"⟩ =
      .ok "v1.2.3" := by decide

/-- C7: metadata-field errors are per-field: on a package section lacking
`name` but holding a `description`, the `name` property raises the
`MissingFieldError` naming the missing field while the `description`
property still returns its value. -/
theorem missing_name_per_field (meta : List (String × String)) (d : String)
    (hn : List.lookup "name" meta = none)
    (hd : List.lookup "description" meta = some d) :
    name meta =
      .error (MissingFieldError
        "No package name specified in Pipfile. Cannot continue." "name") ∧
    description meta = .ok d := by
  constructor
  · unfold name _get_package_meta
    rw [hn]
    rfl
  · unfold description _get_package_meta
    rw [hd]

theorem missing_name_per_field_witness :
    name [("description", "a build tool")] =
      .error (MissingFieldError
        "No package name specified in Pipfile. Cannot continue." "name") ∧
    description [("description", "a build tool")] = .ok "a build tool" :=
  missing_name_per_field [("description", "a build tool")] "a build tool"
    (by decide) (by decide)

/-- C8: `long_description` is total (the only exception, the missing-file
error, is caught): with a README present it returns the README text with
no warning, and with no README it returns `None` together with the
warning line. -/
theorem long_description_never_raises (readme : Option String) :
    (∀ t, readme = some t → long_description readme = (some t, [])) ∧
    (readme = none →
      long_description readme =
        (none,
         ["[IvyBuildTools] WARN: Unable to find a README.md to use as package long description."])) := by
  constructor
  · intro t h
    subst h
    rfl
  · intro h
    subst h
    rfl

theorem long_description_never_raises_witness :
    long_description (some "hello readme") = (some "hello readme", []) ∧
    long_description none =
      (none,
       ["[IvyBuildTools] WARN: Unable to find a README.md to use as package long description."]) :=
  ⟨(long_description_never_raises (some "hello readme")).1 "hello readme" rfl,
   (long_description_never_raises none).2 rfl⟩

/-- C9: every operation, in its state-passing form, leaves the environment
(in particular the loaded manifest) unchanged, and `generate_setup` is a
deterministic function of exactly (manifest, README, git state, package
scan): two environments agreeing on those components yield equal results. -/
theorem resolver_pure_no_mutation (env env2 : Env)
    (hp : env.pipfile = env2.pipfile) (hr : env.readme = env2.readme)
    (hg : env.git = env2.git) (hf : env.foundPackages = env2.foundPackages) :
    (nameS env).2 = env ∧ (descriptionS env).2 = env ∧
    (long_descriptionS env).2 = env ∧ (versionS env).2 = env ∧
    (authorS env).2 = env ∧ (urlS env).2 = env ∧
    (python_requiresS env).2 = env ∧ (install_requiresS env).2 = env ∧
    (generate_setupS env).2 = env ∧
    generate_setupS env = generate_setupS env2 := by
  have henv : env = env2 := by
    cases env
    cases env2
    cases hp
    cases hr
    cases hg
    cases hf
    rfl
  subst henv
  exact ⟨rfl, rfl, rfl, rfl, rfl, rfl, rfl, rfl, rfl, rfl⟩

theorem resolver_pure_no_mutation_witness :
    (generate_setupS ⟨⟨[("name", "n")], [], none⟩, none, ⟨none, none⟩, []⟩).2 =
      ⟨⟨[("name", "n")], [], none⟩, none, ⟨none, none⟩, []⟩ :=
  (resolver_pure_no_mutation
    ⟨⟨[("name", "n")], [], none⟩, none, ⟨none, none⟩, []⟩
    ⟨⟨[("name", "n")], [], none⟩, none, ⟨none, none⟩, []⟩
    rfl rfl rfl rfl).2.2.2.2.2.2.2.2.1

/-- C10: a `version` key holding the empty string (the only falsy string)
is Python-falsy in `if version_override:`, so the property does not return
it and instead takes the git-based generation path, exactly as when the
key is absent. -/
theorem version_empty_override_generates (pf : Pipfile) (git : GitState)
    (hv : List.lookup "version" pf.package = some "") :
    version pf git = versionFallback git := by
  unfold version
  rw [hv]
  simp

theorem version_empty_override_generates_witness :
    version ⟨[("version", "")], [], none⟩ ⟨some "v1.2.3-0-gabcdef1", some "master"⟩ =
      versionFallback ⟨some "v1.2.3-0-gabcdef1", some "master"⟩ ∧
    versionFallback ⟨some "v1.2.3-0-gabcdef1", some "master"⟩ = .ok "v1.2.3" :=
  ⟨version_empty_override_generates ⟨[("version", "")], [], none⟩
    ⟨some "v1.2.3-0-gabcdef1", some "master"⟩ (by decide), by decide⟩

end IvyBuildTools
